import Mathlib

/-!
Verification of `clarity/data/scene_renderer_cec1.py` (CEC1 scene renderer).

Shallow embedding conventions:
* floating-point samples are modelled as real numbers (`ℝ`); durations and
  rates, which Python mixes as ints/floats, are modelled as `ℚ`/`ℕ` with
  Python `int()` truncation written as `Int.toNat ∘ Int.floor` (the durations
  used are nonnegative, where truncation and floor agree);
* numpy arrays appearing in `apply_brir` are modelled by `NPArr` with the
  ranks that can actually reach the function (0-d, 1-d, and two-column 2-d);
* fallible Python code (exceptions: broadcast errors, unbound locals,
  assertion errors) is modelled with `Except RenderErr`;
* file reads are abstracted by a `SceneFiles` record holding the content the
  `read_signal` calls would return; the external better-ear speech-weighted
  SNR metric is a function parameter, per its external contract.
-/

/-- Python `int(q)` for the nonnegative rational quantities used by the
renderer (sample counts derived from durations). -/
def pyInt (q : ℚ) : ℕ := (Int.floor q).toNat

/-- The error kinds with which the modelled Python code can fail
(exceptions escaping the corresponding Python function). -/
inductive RenderErr where
  /-- Python `TypeError`: `len()` of an unsized (0-d) object. -/
  | typeError : RenderErr
  /-- Python `UnboundLocalError`: `np.vstack([signal_l, signal_r])` with the
  convolution results never assigned (unsupported shape branch). -/
  | unboundLocal : RenderErr
  /-- numpy broadcast failure in the in-place ramp multiplication. -/
  | broadcast : RenderErr
  /-- Python `ValueError` raised by `compute_snr` when the trimmed segments differ
  in length, with the two segment lengths. -/
  | lengthMismatch (lt ln : ℕ) : RenderErr
  /-- Python `AssertionError` from the fixed-point range check in `write_signal`. -/
  | clipError : RenderErr
  deriving DecidableEq

/-- The `Renderer` configuration state set up by `Renderer.__init__`
(lines 21-48 of the source). -/
structure Renderer where
  input_path : String
  output_path : String
  sample_rate : ℕ
  ramp_duration : ℚ
  n_tail : ℕ
  pre_duration : ℚ
  post_duration : ℚ
  test_nbits : ℕ
  channels : List ℕ

/-- Model of `Renderer.__init__`: `n_tail = int(tail_duration * sample_rate)` and the
channel sequence is `[]` for `num_channels = 0` and `[1, …, N, 0]` otherwise. -/
def Renderer.make (input_path output_path : String) (num_channels : ℕ)
    (sample_rate : ℕ) (ramp_duration tail_duration pre_duration post_duration : ℚ)
    (test_nbits : ℕ) : Renderer :=
  { input_path := input_path
    output_path := output_path
    sample_rate := sample_rate
    ramp_duration := ramp_duration
    n_tail := pyInt (tail_duration * sample_rate)
    pre_duration := pre_duration
    post_duration := post_duration
    test_nbits := test_nbits
    channels :=
      if num_channels = 0 then [] else List.range' 1 num_channels ++ [0] }

/-- A numpy array as it can appear inside `apply_brir`: a 0-d scalar (the
result of squeezing a singleton), a 1-d signal, or a two-column 2-d array
(mono signals, stereo signals and BRIRs are the only arrays reaching it). -/
inductive NPArr where
  | d0 : ℝ → NPArr
  | d1 : List ℝ → NPArr
  | d2 : List (ℝ × ℝ) → NPArr

/-- Model of `np.squeeze`: axes of size 1 are removed, so a one-row two-column array
becomes 1-d and a one-element 1-d array becomes 0-d; other shapes are kept. -/
def npSqueeze : NPArr → NPArr
  | .d0 x => .d0 x
  | .d1 [x] => .d0 x
  | .d1 l => .d1 l
  | .d2 [p] => .d1 [p.1, p.2]
  | .d2 l => .d2 l

/-- Model of `scipy.signal.convolve(x, h, mode="full")` on (nonempty) 1-d inputs:
the full linear convolution, of length `len(x) + len(h) - 1`. -/
def conv (x h : List ℝ) : List ℝ :=
  (List.range (x.length + h.length - 1)).map fun n =>
    ∑ i ∈ Finset.range (n + 1), x.getD i 0 * h.getD (n - i) 0

/-- Model of `Renderer.apply_brir` (lines 147-171): the BRIR is squeezed, the signal
is convolved per ear according to the mono/stereo shape dispatch, the two
ears are stacked into rows and the result is truncated to
`len(signal) + n_tail` rows.  A 0-d signal fails in `len(signal)` with a
`TypeError`; an unsupported shape combination logs and then fails with an
`UnboundLocalError` when stacking the never-assigned convolution results. -/
def apply_brir (self : Renderer) (signal brir : NPArr) :
    Except RenderErr (List (ℝ × ℝ)) :=
  match signal with
  | .d0 _ => .error .typeError
  | .d1 s =>
    let output_len := s.length + self.n_tail
    match npSqueeze brir with
    | .d2 b =>
      let signal_l := conv s (b.map Prod.fst)
      let signal_r := conv s (b.map Prod.snd)
      .ok ((signal_l.zip signal_r).take output_len)
    | _ => .error .unboundLocal
  | .d2 s =>
    let output_len := s.length + self.n_tail
    match npSqueeze brir with
    | .d2 b =>
      let signal_l := conv (s.map Prod.fst) (b.map Prod.fst)
      let signal_r := conv (s.map Prod.snd) (b.map Prod.snd)
      .ok ((signal_l.zip signal_r).take output_len)
    | _ => .error .unboundLocal

/-- The shape dispatch of `apply_brir` (lines 162-167): accepted iff the
signal is 1-d or 2-d and the squeezed BRIR is 2-d. -/
def brir_shapes_ok (signal brir : NPArr) : Bool :=
  match signal with
  | .d0 _ => false
  | _ =>
    match npSqueeze brir with
    | .d2 _ => true
    | _ => false

/-- Whether an `Except` computation returned normally. -/
def retOk {ε α : Type} : Except ε α → Bool
  | .ok _ => true
  | .error _ => false

theorem conv_length (x h : List ℝ) :
    (conv x h).length = x.length + h.length - 1 := by
  simp [conv]

theorem npSqueeze_d2 (l : List (ℝ × ℝ)) (h : l.length ≠ 1) :
    npSqueeze (.d2 l) = .d2 l := by
  match l with
  | [] => rfl
  | [p] => simp at h
  | p :: q :: t => rfl

theorem zip_self {α : Type} (l : List α) :
    l.zip l = l.map fun x => (x, x) := by
  induction l with
  | nil => rfl
  | cons a t ih => simp [ih]

/-- Model of `np.linspace(a, b, num)`: `num` evenly spaced points from `a` to `b`
inclusive (`a + i * (b - a) / (num - 1)`; for `num = 1` numpy returns `[a]`,
which the formula reproduces since division by zero is zero in `ℝ`). -/
noncomputable def npLinspace (a b : ℝ) (num : ℕ) : List ℝ :=
  (List.range num).map fun i : ℕ => a + (i : ℝ) * ((b - a) / ((num : ℝ) - 1))

/-- The half-cosine window of `Renderer.apply_ramp` (lines 138-141):
`(np.cos(np.linspace(math.pi, 2 * math.pi, int(sample_rate * ramp_duration))) + 1) / 2`. -/
noncomputable def rampWindow (self : Renderer) (ramp_duration : ℚ) : List ℝ :=
  (npLinspace Real.pi (2 * Real.pi) (pyInt (self.sample_rate * ramp_duration))).map
    fun x => (Real.cos x + 1) / 2

/-- Model of `Renderer.apply_ramp` (lines 128-145): the first `len(ramp)` samples are
multiplied in place by the rising window and the last `len(ramp)` samples by
the reversed window (overlapping multiplications compose when the signal is
shorter than two windows).  The in-place numpy multiplications require the
slices and the window to have matching lengths; the only size mismatches
that broadcast are those against an empty slice of an empty signal, so the
call succeeds exactly when `len(ramp) ≤ len(signal)` with a nonempty window,
when both are empty, or when the signal is empty and the window a singleton
(size-one broadcast); any other combination raises a broadcast `ValueError`. -/
noncomputable def apply_ramp (self : Renderer) (signal : List ℝ)
    (ramp_duration : ℚ) : Except RenderErr (List ℝ) :=
  let ramp := rampWindow self ramp_duration
  let n := ramp.length
  let m := signal.length
  if (1 ≤ n ∧ n ≤ m) ∨ (n = 0 ∧ m = 0) ∨ (n = 1 ∧ m = 0) then
    .ok ((List.range m).map fun i =>
      signal.getD i 0 * (if i < n then ramp.getD i 0 else 1) *
        (if m - n ≤ i then ramp.getD (m - 1 - i) 0 else 1))
  else .error .broadcast

/-- Python's slice `x[pre:-post]` on a list: start index `pre`, stop index
`len(x) - post` (clamped at 0) — except that `post = 0` makes the stop index
the literal `0`, yielding the empty list. -/
def pySliceNegEnd {α : Type} (l : List α) (pre post : ℕ) : List α :=
  (l.take (if post = 0 then 0 else l.length - post)).drop pre

/-- The number of samples `compute_snr` trims from the start:
`int(self.sample_rate * self.pre_duration)` (line 189). -/
def trimPre (self : Renderer) : ℕ := pyInt (self.sample_rate * self.pre_duration)

/-- The number of samples `compute_snr` trims from the end:
`int(self.sample_rate * self.post_duration)` (line 190). -/
def trimPost (self : Renderer) : ℕ := pyInt (self.sample_rate * self.post_duration)

/-- Model of `Renderer.compute_snr` (lines 173-202).  The external
`better_ear_speechweighted_snr` metric is the parameter `metric`.  Note that
the source immediately overwrites the `pre_samples`/`post_samples` arguments
with the configured `int(sample_rate * pre_duration)` and
`int(sample_rate * post_duration)`, so the arguments are dead. -/
def compute_snr (self : Renderer)
    (metric : List (ℝ × ℝ) → List (ℝ × ℝ) → ℝ)
    (target noise : List (ℝ × ℝ)) (pre_samples post_samples : ℕ) :
    Except RenderErr ℝ :=
  let pre := trimPre self
  let post := trimPost self
  let segment_target := pySliceNegEnd target pre post
  let segment_noise := pySliceNegEnd noise pre post
  if segment_target.length = segment_noise.length then
    .ok (metric segment_target segment_noise)
  else
    .error (.lengthMismatch segment_target.length segment_noise.length)

/-- Python truncation toward zero of a float, as in `astype` casts. -/
def truncTowardZero (q : ℚ) : ℤ := if 0 ≤ q then Int.floor q else Int.ceil q

/-- numpy's cast of an (integral-valued) float to `int16`: reduce modulo
`2^16` into `[-32768, 32767]`. -/
def int16Wrap (z : ℤ) : ℤ := (z + 32768) % 65536 - 32768

/-- The data `soundfile.write` is handed by `write_signal`. -/
inductive WrittenSignal where
  | floatData : List ℚ → WrittenSignal
  | pcm16Data : List ℤ → WrittenSignal
  | pcm24Data : List ℚ → WrittenSignal
  deriving DecidableEq

/-- Model of `Renderer.write_signal` (lines 89-126), fixed/floating-point dispatch.
Samples are modelled as rationals (every float is rational).  For 16-bit
output the signal is scaled by 32768, cast to `int16` (wrapping), and only
then range-checked by the `assert`; with `test_nbits` neither 16 nor 24 and
`floating_point=False` the local `subtype` is never assigned and the final
write raises `UnboundLocalError`. -/
def write_signal (self : Renderer) (signal : List ℚ) (floating_point : Bool) :
    Except RenderErr WrittenSignal :=
  if floating_point = false then
    if self.test_nbits = 16 then
      let scaled := signal.map fun x => x * 32768
      let signal16 := scaled.map fun x => int16Wrap (truncTowardZero x)
      if signal16.all (fun v => v ≤ 32767) ∧ signal16.all (fun v => -32768 ≤ v) then
        .ok (.pcm16Data signal16)
      else
        .error .clipError
    else if self.test_nbits = 24 then
      .ok (.pcm24Data signal)
    else
      .error .unboundLocal
  else
    .ok (.floatData signal)

/-- Modelled from the spec: `pad` from `clarity.data.utils` (the module is
not under `src/`): zero-extends a (stereo) signal to the given length. -/
def pad (signal : List (ℝ × ℝ)) (n : ℕ) : List (ℝ × ℝ) :=
  signal ++ List.replicate (n - signal.length) (0, 0)

/-- Modelled from the spec: `sum_signals` from `clarity.data.utils` (the
module is not under `src/`): element-wise sum of stereo signals, differing
lengths handled by truncation to the shorter. -/
def sum_signals : List (List (ℝ × ℝ)) → List (ℝ × ℝ)
  | [] => []
  | [s] => s
  | s :: rest =>
    ((sum_signals rest).zip s).map fun p => (p.1.1 + p.2.1, p.1.2 + p.2.2)

/-- The per-channel scale `10 ** ((-snr_dB) / 20)` of line 273. -/
noncomputable def snr_factor (snr_dB : ℤ) : ℝ :=
  (10 : ℝ) ^ ((-(snr_dB : ℝ)) / 20)

/-- A rendered output signal: the raw target/interferer are mono, all
convolved signals are stereo. -/
inductive OutSig where
  | mono : List ℝ → OutSig
  | stereo : List (ℝ × ℝ) → OutSig

/-- What the `read_signal` calls of `render` would return: the target
recording, the interferer segment, the per-channel target/interferer BRIRs
and the dedicated anechoic BRIR (all two-column wav data). -/
structure SceneFiles where
  targetSig : List ℝ
  interfererSig : List ℝ
  targetBrir : ℕ → List (ℝ × ℝ)
  interfererBrir : ℕ → List (ℝ × ℝ)
  anechoicBrir : List (ℝ × ℝ)

/-- Model of `target = np.pad(target, [(pre_samples, post_samples)])` (line 225):
the target signal bracketed by `pre_samples` and `post_samples` zeros. -/
def paddedTarget (files : SceneFiles) (pre_samples post_samples : ℕ) : List ℝ :=
  List.replicate pre_samples (0 : ℝ) ++ files.targetSig ++
    List.replicate post_samples (0 : ℝ)

/-- The per-channel loop of `Renderer.render` (lines 245-283), threading the
`snr_ref` cache and the (Python-scoped) `target_brir` loop variable.
Returns the `(filename, signal)` pairs appended by the loop together with
the final values of `snr_ref` and `target_brir`. -/
noncomputable def renderChannels (self : Renderer)
    (metric : List (ℝ × ℝ) → List (ℝ × ℝ) → ℝ) (files : SceneFiles)
    (target interferer_signal : List ℝ) (fileStem : String) (snr_dB : ℤ)
    (pre_samples post_samples : ℕ) :
    List ℕ → Option ℝ → Option (List (ℝ × ℝ)) →
    Except RenderErr (List (String × OutSig) × Option ℝ × Option (List (ℝ × ℝ)))
  | [], snr_ref, target_brir => .ok ([], snr_ref, target_brir)
  | channel :: rest, snr_ref, _ => do
    let target_brir := files.targetBrir channel
    let interferer_brir := files.interfererBrir channel
    let target_at_ear ← apply_brir self (.d1 target) (.d2 target_brir)
    let interferer_at_ear ← apply_brir self (.d1 interferer_signal) (.d2 interferer_brir)
    let snr_ref ←
      match snr_ref with
      | some r => Except.ok r
      | none =>
        compute_snr self metric target_at_ear interferer_at_ear pre_samples post_samples
    let interferer_at_ear := interferer_at_ear.map fun p =>
      (p.1 * snr_ref * snr_factor snr_dB, p.2 * snr_ref * snr_factor snr_dB)
    let signal_at_ear := sum_signals [target_at_ear, interferer_at_ear]
    let (restOuts, refOut, brirOut) ←
      renderChannels self metric files target interferer_signal fileStem snr_dB
        pre_samples post_samples rest (some snr_ref) (some target_brir)
    .ok ((fileStem ++ "_mixed_CH" ++ toString channel ++ ".wav", .stereo signal_at_ear) ::
         (fileStem ++ "_target_CH" ++ toString channel ++ ".wav", .stereo target_at_ear) ::
         (fileStem ++ "_interferer_CH" ++ toString channel ++ ".wav", .stereo interferer_at_ear) ::
         restOuts, refOut, brirOut)

/-- Model of `Renderer.render` (lines 204-302), with file reads abstracted by
`files`: pad the target, ramp the interferer, run the per-channel loop,
rebuild `target_brir` for the empty-channel case, construct the anechoic
reference from the padded anechoic BRIR, and return the ordered list of
`(filename, signal)` artifacts that are then written. -/
noncomputable def render (self : Renderer)
    (metric : List (ℝ × ℝ) → List (ℝ × ℝ) → ℝ) (files : SceneFiles)
    (scene : String) (snr_dB : ℤ) (pre_samples post_samples : ℕ) :
    Except RenderErr (List (String × OutSig)) := do
  let target := paddedTarget files pre_samples post_samples
  let interferer_signal ← apply_ramp self files.interfererSig self.ramp_duration
  let fileStem := self.output_path ++ "/" ++ scene
  let outputs := [(fileStem ++ "_target.wav", OutSig.mono target),
                  (fileStem ++ "_interferer.wav", OutSig.mono interferer_signal)]
  let (chanOuts, _, lastBrir) ←
    renderChannels self metric files target interferer_signal fileStem snr_dB
      pre_samples post_samples self.channels none none
  let target_brir := lastBrir.getD (files.targetBrir 0)
  let anechoic_brir_pad := pad files.anechoicBrir target_brir.length
  let target_anechoic ← apply_brir self (.d1 target) (.d2 anechoic_brir_pad)
  .ok (outputs ++ chanOuts ++
    [(fileStem ++ "_target_anechoic.wav", OutSig.stereo target_anechoic)])

/-- The channel sequence recomputed by `check_scene_exists` (lines 318-325),
identical to the rule of `Renderer.__init__`. -/
def checkChannels (num_channels : ℕ) : List ℕ :=
  if num_channels = 0 then [] else List.range' 1 num_channels ++ [0]

/-- The `files_to_check` list of `check_scene_exists` (lines 327-340). -/
def files_to_check (output_path scene : String) (num_channels : ℕ) :
    List String :=
  let pattern := output_path ++ "/" ++ scene
  [pattern ++ "_target.wav",
   pattern ++ "_target_anechoic.wav",
   pattern ++ "_interferer.wav"] ++
  (checkChannels num_channels).flatMap fun ch =>
    [pattern ++ "_mixed_CH" ++ toString ch ++ ".wav",
     pattern ++ "_interferer_CH" ++ toString ch ++ ".wav",
     pattern ++ "_target_CH" ++ toString ch ++ ".wav"]

/-- Model of `check_scene_exists` (lines 305-345): true iff every expected file
exists, with `os.path.exists` abstracted as a predicate on filenames. -/
def check_scene_exists (fileOnDisk : String → Bool)
    (output_path scene : String) (num_channels : ℕ) : Bool :=
  (files_to_check output_path scene num_channels).all fileOnDisk

/-! ### Concrete instances used by witnesses and counterexamples -/

/-- A small renderer configuration: one hearing-aid channel, 1 Hz sample
rate, 1 s ramp (a one-sample window), 5 s tail (`n_tail = 5`), zero pre/post
analysis durations. -/
def rendererW : Renderer := Renderer.make "in" "out" 1 1 1 5 0 0 16

/-- A renderer built with the default constructor arguments of
`Renderer.__init__` (sample rate 44100, ramp 0.5 s, tail 0.2 s,
pre 2.0 s, post 1.0 s, 16-bit test output). -/
def rendererDefault : Renderer := Renderer.make "in" "out" 1 44100 (1 / 2) (1 / 5) 2 1 16

/-- A constant stand-in for the external better-ear SNR metric. -/
def metricW : List (ℝ × ℝ) → List (ℝ × ℝ) → ℝ := fun _ _ => 1

/-- Another constant stand-in for the external better-ear SNR metric. -/
def metricZero : List (ℝ × ℝ) → List (ℝ × ℝ) → ℝ := fun _ _ => 0

/-- Concrete scene input files: a one-sample target and interferer, and
BRIRs of differing lengths across channels (channel 1's target BRIR has 2
rows, channel 0's has 3). -/
def filesW : SceneFiles :=
  { targetSig := [0]
    interfererSig := [4]
    targetBrir := fun ch => if ch = 1 then [(0, 0), (0, 0)] else [(0, 0), (0, 0), (0, 0)]
    interfererBrir := fun _ => [(0, 0), (0, 0)]
    anechoicBrir := [(0, 0), (0, 0)] }

theorem rendererW_n_tail : rendererW.n_tail = 5 := by
  norm_num [rendererW, Renderer.make, pyInt]
  rfl

theorem rendererDefault_n_tail : rendererDefault.n_tail = 8820 := by
  norm_num [rendererDefault, Renderer.make, pyInt]
  rfl

theorem except_bind_ok {ε α β : Type} (x : Except ε α) (f : α → Except ε β) (b : β)
    (h : (x >>= f) = .ok b) : ∃ a, x = .ok a ∧ f a = .ok b := by
  cases x with
  | error e => simp [Bind.bind, Except.bind] at h
  | ok a => exact ⟨a, rfl, by simpa [Bind.bind, Except.bind] using h⟩

/-! ### C4: output shape of `apply_brir` -/

/-- C4 (counterexample): the claim says a mono signal convolved with any
two-column BRIR yields `len(S) + n_tail` rows regardless of the BRIR's
length.  For the 3-sample signal `[1, 2, 3]` and a 2-row BRIR under
`rendererW` (`n_tail = 5`), `apply_brir` returns only `3 + 2 - 1 = 4` rows —
the slice `output[0:output_len]` truncates but never pads — not `3 + 5 = 8`. -/
theorem c4_shape_counterexample :
    (apply_brir rendererW (.d1 [1, 2, 3]) (.d2 [(1, 0), (0, 1)])).map List.length =
      .ok 4 ∧ rendererW.n_tail = 5 ∧ (4 : ℕ) ≠ 3 + 5 := by
  refine ⟨?_, rendererW_n_tail, by norm_num⟩
  have hsq : npSqueeze (.d2 [(1, 0), (0, 1)]) = .d2 [(1, 0), (0, 1)] := rfl
  simp [apply_brir, hsq, rendererW_n_tail, Except.map, List.length_take,
    List.length_zip, conv_length]

/-- C4 (amended): for a nonempty mono signal `S` and a two-column BRIR `B`
with at least 2 rows (so that `np.squeeze` keeps it two-dimensional and the
convolution inputs are nonempty), `apply_brir S B` returns a stereo signal
with exactly `min (len S + len B - 1) (len S + n_tail)` rows: the configured
tail budget caps the output, but a BRIR shorter than the tail yields only
the full-convolution length. -/
theorem c4_shape_amended (self : Renderer) (s : List ℝ) (b : List (ℝ × ℝ))
    (hs : s ≠ []) (hb : 2 ≤ b.length) :
    ∃ out, apply_brir self (.d1 s) (.d2 b) = .ok out ∧
      out.length = min (s.length + b.length - 1) (s.length + self.n_tail) := by
  have hsq : npSqueeze (.d2 b) = .d2 b := npSqueeze_d2 b (by omega)
  refine ⟨((conv s (b.map Prod.fst)).zip (conv s (b.map Prod.snd))).take
    (s.length + self.n_tail), by simp [apply_brir, hsq], ?_⟩
  simp [List.length_take, List.length_zip, conv_length]
  omega

/-- C4 (witness): the amended statement at the concrete counterexample
input: `3`-sample signal, `2`-row BRIR, `n_tail = 5`, output rows
`min (3 + 2 - 1) (3 + 5) = 4`. -/
theorem c4_shape_amended_witness :
    (([1, 2, 3] : List ℝ) ≠ [] ∧ 2 ≤ ([(1, 0), (0, 1)] : List (ℝ × ℝ)).length) ∧
    ∃ out, apply_brir rendererW (.d1 [1, 2, 3]) (.d2 [(1, 0), (0, 1)]) = .ok out ∧
      out.length = min (([1, 2, 3] : List ℝ).length + ([(1, 0), (0, 1)] : List (ℝ × ℝ)).length - 1)
        (([1, 2, 3] : List ℝ).length + rendererW.n_tail) :=
  ⟨⟨by simp, by simp⟩,
    c4_shape_amended rendererW [1, 2, 3] [(1, 0), (0, 1)] (by simp) (by simp)⟩

/-! ### C6: behavior on unsupported shape combinations -/

/-- C6 (counterexample): the claim says an unsupported signal/BRIR shape
combination makes `apply_brir` log an error and return without raising.  In
fact after the log the function evaluates
`np.vstack([signal_l, signal_r])` with both locals unassigned, raising
`UnboundLocalError`: on the 1-d/1-d combination the call fails rather than
returning. -/
theorem c6_shape_error_counterexample :
    apply_brir rendererW (.d1 [1, 2]) (.d1 [1, 2]) = .error RenderErr.unboundLocal := rfl

/-- C6 (amended): whenever the signal/BRIR shape combination is not one of
the two supported ones (mono×two-column, stereo×two-column after squeeze),
`apply_brir` does log but then fails with an exception instead of returning
a value (`UnboundLocalError` from the unassigned convolution results, or
`TypeError` from `len()` of a 0-d signal). -/
theorem c6_shape_error_amended (self : Renderer) (signal brir : NPArr)
    (h : brir_shapes_ok signal brir = false) :
    retOk (apply_brir self signal brir) = false := by
  cases signal with
  | d0 x => rfl
  | d1 s =>
    cases hsq : npSqueeze brir with
    | d0 y => simp [apply_brir, hsq, retOk]
    | d1 l => simp [apply_brir, hsq, retOk]
    | d2 l => simp [brir_shapes_ok, hsq] at h
  | d2 s =>
    cases hsq : npSqueeze brir with
    | d0 y => simp [apply_brir, hsq, retOk]
    | d1 l => simp [apply_brir, hsq, retOk]
    | d2 l => simp [brir_shapes_ok, hsq] at h

/-- C6 (witness): the amended statement at a concrete unsupported
combination (both arrays 1-d). -/
theorem c6_shape_error_amended_witness :
    brir_shapes_ok (.d1 [1, 2]) (.d1 [1, 2]) = false ∧
    retOk (apply_brir rendererW (.d1 [1, 2]) (.d1 [1, 2])) = false :=
  ⟨rfl, c6_shape_error_amended rendererW (.d1 [1, 2]) (.d1 [1, 2]) rfl⟩

/-! ### C10: stereo duplication equals mono rendering -/

/-- C10 (confirmed): for a nonempty mono signal `S` and a two-column BRIR
whose columns are both `col` (at least 2 rows, so squeeze keeps it 2-d and
the convolutions are over nonempty inputs), `apply_brir` on the stereo
signal duplicating `S` into both channels returns exactly the column-wise
duplication of the truncated mono convolution — the same value the mono
call returns. -/
theorem c10_stereo_duplication (self : Renderer) (s col : List ℝ)
    (hs : s ≠ []) (hcol : 2 ≤ col.length) :
    apply_brir self (.d2 (s.map fun x => (x, x))) (.d2 (col.map fun c => (c, c))) =
      .ok (((conv s col).take (s.length + self.n_tail)).map fun x => (x, x)) ∧
    apply_brir self (.d1 s) (.d2 (col.map fun c => (c, c))) =
      .ok (((conv s col).take (s.length + self.n_tail)).map fun x => (x, x)) := by
  have hsq : npSqueeze (.d2 (col.map fun c => (c, c))) = .d2 (col.map fun c => (c, c)) :=
    npSqueeze_d2 _ (by simp; omega)
  have hfst : (col.map fun c => (c, c)).map Prod.fst = col := by
    simp [Function.comp_def]
  have hsnd : (col.map fun c => (c, c)).map Prod.snd = col := by
    simp [Function.comp_def]
  have hzip : (conv s col).zip (conv s col) = (conv s col).map fun x => (x, x) :=
    zip_self _
  constructor
  · have hsfst : (s.map fun x => (x, x)).map Prod.fst = s := by simp [Function.comp_def]
    have hssnd : (s.map fun x => (x, x)).map Prod.snd = s := by simp [Function.comp_def]
    simp [apply_brir, hsq, hfst, hsnd, hsfst, hssnd, hzip, List.map_take]
  · simp [apply_brir, hsq, hfst, hsnd, hzip, List.map_take]

/-- C10 (witness): the duplication property at a concrete input. -/
theorem c10_stereo_duplication_witness :
    (([1] : List ℝ) ≠ [] ∧ 2 ≤ ([0, 3] : List ℝ).length) ∧
    (apply_brir rendererW (.d2 (([1] : List ℝ).map fun x => (x, x)))
        (.d2 (([0, 3] : List ℝ).map fun c => (c, c))) =
      .ok (((conv [1] [0, 3]).take (([1] : List ℝ).length + rendererW.n_tail)).map
        fun x => (x, x)) ∧
    apply_brir rendererW (.d1 [1]) (.d2 (([0, 3] : List ℝ).map fun c => (c, c))) =
      .ok (((conv [1] [0, 3]).take (([1] : List ℝ).length + rendererW.n_tail)).map
        fun x => (x, x))) :=
  ⟨⟨by simp, by simp⟩, c10_stereo_duplication rendererW [1] [0, 3] (by simp) (by simp)⟩

/-! ### C3 / C7: `compute_snr` trimming and length checking -/

theorem trimPre_default : trimPre rendererDefault = 88200 := by
  norm_num [trimPre, rendererDefault, Renderer.make, pyInt]
  rfl

theorem trimPost_default : trimPost rendererDefault = 44100 := by
  norm_num [trimPost, rendererDefault, Renderer.make, pyInt]
  rfl

/-- A 200000-sample stereo test signal. -/
def tSig200k : List (ℝ × ℝ) := List.replicate 200000 (0, 0)

/-- C3 (code bug): the claim — and the caller in `render`, which carefully
passes its own `pre_samples`/`post_samples` through — expect `compute_snr`
to trim by the supplied argument values, but lines 189-190 overwrite both
arguments with the configured `int(sample_rate * pre_duration)` and
`int(sample_rate * post_duration)` before slicing.  Under the default
configuration the call with arguments `5` and `3` is indistinguishable from
any other argument values and trims `88200`/`44100` samples, not `5`/`3`
(the segment lengths 67700 and 199992 differ). -/
theorem c3_trim_ignores_arguments :
    (∀ p q p2 q2 : ℕ,
      compute_snr rendererDefault metricZero tSig200k tSig200k p q =
        compute_snr rendererDefault metricZero tSig200k tSig200k p2 q2) ∧
    compute_snr rendererDefault metricZero tSig200k tSig200k 5 3 =
      .ok (metricZero (pySliceNegEnd tSig200k 88200 44100)
        (pySliceNegEnd tSig200k 88200 44100)) ∧
    (pySliceNegEnd tSig200k 5 3).length = 199992 ∧
    (pySliceNegEnd tSig200k 88200 44100).length = 67700 := by
  refine ⟨fun p q p2 q2 => rfl, ?_, ?_, ?_⟩
  · simp only [compute_snr]
    rw [trimPre_default, trimPost_default]
    exact if_pos trivial
  · rw [tSig200k]
    simp only [pySliceNegEnd, List.length_drop, List.length_take, List.length_replicate]
    norm_num
  · rw [tSig200k]
    simp only [pySliceNegEnd, List.length_drop, List.length_take, List.length_replicate]
    norm_num

/-- C7 (counterexample): the claim asserts `compute_snr` raises
`LengthMismatch` when handed a 1000-sample target and a 900-sample noise.
Under the default configuration both signals are shorter than the 88200-
sample pre-trim, so both trimmed segments are empty, the length check
passes, and the call returns normally. -/
theorem c7_no_error_at_1000_900 :
    compute_snr rendererDefault metricZero (List.replicate 1000 (0, 0))
      (List.replicate 900 (0, 0)) 0 0 = .ok 0 := by
  simp only [compute_snr]
  rw [trimPre_default, trimPost_default, if_pos ?hlen]
  case hlen =>
    simp only [pySliceNegEnd, List.length_drop, List.length_take, List.length_replicate]
    norm_num
  rfl

/-- C7 (amended): `compute_snr` fails with `LengthMismatch` exactly when the
two trimmed segments differ in length, the trim amounts being the
configured `int(sample_rate * pre_duration)` / `int(sample_rate *
post_duration)` rather than the caller's segment lengths; inputs must be
long enough to survive the trim for the mismatch to be observable — e.g.
under the default configuration a 133300-sample target and a 133200-sample
noise (trimmed to 1000 and 900 samples) do raise it. -/
theorem c7_length_mismatch_iff :
    (∀ (self : Renderer) (metric : List (ℝ × ℝ) → List (ℝ × ℝ) → ℝ)
      (target noise : List (ℝ × ℝ)) (p q : ℕ),
      (∃ lt ln, compute_snr self metric target noise p q =
          .error (.lengthMismatch lt ln)) ↔
        (pySliceNegEnd target (trimPre self) (trimPost self)).length ≠
          (pySliceNegEnd noise (trimPre self) (trimPost self)).length) ∧
    compute_snr rendererDefault metricZero (List.replicate 133300 (0, 0))
      (List.replicate 133200 (0, 0)) 0 0 = .error (.lengthMismatch 1000 900) := by
  constructor
  · intro self metric target noise p q
    simp only [compute_snr]
    split
    · next heq => simp [heq]
    · next hne => exact iff_of_true ⟨_, _, rfl⟩ hne
  · have h1 : (pySliceNegEnd (List.replicate 133300 ((0 : ℝ), (0 : ℝ)))
        88200 44100).length = 1000 := by
      simp only [pySliceNegEnd, List.length_drop, List.length_take, List.length_replicate]
      norm_num
    have h2 : (pySliceNegEnd (List.replicate 133200 ((0 : ℝ), (0 : ℝ)))
        88200 44100).length = 900 := by
      simp only [pySliceNegEnd, List.length_drop, List.length_take, List.length_replicate]
      norm_num
    simp only [compute_snr]
    rw [trimPre_default, trimPost_default, h1, h2, if_neg (by norm_num)]

/-! ### C8: the fixed-point clipping check -/

/-- C8 (code bug): the claim — matching the evident intent of the `assert`
on line 120 — is that a 16-bit fixed-point write fails with `ClipError`
whenever the scaled signal leaves `[-32768, 32767]`.  But the source checks
the range only after `astype(np.int16)` has already wrapped the values into
that very range, so the assertion can never fire: no signal ever raises
`ClipError`, and the out-of-range sample `2.0` (scaled to `65536`) is
silently wrapped to `0` and written. -/
theorem c8_clip_assert_vacuous :
    (∀ signal : List ℚ, write_signal rendererDefault signal false ≠
      .error RenderErr.clipError) ∧
    write_signal rendererDefault [2] false = .ok (.pcm16Data [0]) ∧
    ¬ ((2 : ℚ) * 32768 ≤ 32767) := by
  have htr : truncTowardZero ((2 : ℚ) * 32768) = 65536 := by
    rw [truncTowardZero, if_pos (by norm_num)]
    norm_num
  have hwrap : int16Wrap 65536 = 0 := by
    rw [int16Wrap]
    decide
  refine ⟨?_, ?_, by norm_num⟩
  case refine_2 =>
    simp only [write_signal, List.map_cons, List.map_nil]
    rw [htr, hwrap, if_pos trivial,
      if_pos (show rendererDefault.test_nbits = 16 from rfl), if_pos (by decide)]
  intro signal
  have h16 : rendererDefault.test_nbits = 16 := rfl
  have hbound : ∀ q : ℚ, -32768 ≤ int16Wrap (truncTowardZero q) ∧
      int16Wrap (truncTowardZero q) ≤ 32767 := by
    intro q
    have h1 : 0 ≤ (truncTowardZero q + 32768) % 65536 :=
      Int.emod_nonneg _ (by norm_num)
    have h2 : (truncTowardZero q + 32768) % 65536 < 65536 :=
      Int.emod_lt_of_pos _ (by norm_num)
    simp only [int16Wrap]
    omega
  simp only [write_signal, h16, if_pos trivial]
  rw [if_pos ?hall]
  case hall =>
    constructor <;>
      · rw [List.all_eq_true]
        intro v hv
        rw [List.mem_map] at hv
        obtain ⟨x, _, hx⟩ := hv
        subst hx
        simp only [decide_eq_true_eq]
        first
          | exact (hbound x).2
          | exact (hbound x).1
  simp

/-! ### C9: frame effect of `apply_ramp` -/

theorem getD_map_range (f : ℕ → ℝ) (m i : ℕ) (h : i < m) :
    ((List.range m).map f).getD i 0 = f i := by
  rw [List.getD_eq_getElem?_getD, List.getElem?_map, List.getElem?_range h]
  rfl

theorem rampWindow_length (self : Renderer) (d : ℚ) :
    (rampWindow self d).length = pyInt (self.sample_rate * d) := by
  rw [rampWindow, npLinspace, List.length_map, List.length_map, List.length_range]

/-- The window as a single map over sample indices. -/
theorem rampWindow_eq (self : Renderer) (d : ℚ) :
    rampWindow self d = (List.range (pyInt (self.sample_rate * d))).map
      fun i : ℕ => (Real.cos (Real.pi + (i : ℝ) * ((2 * Real.pi - Real.pi) /
        ((pyInt (self.sample_rate * d) : ℝ) - 1))) + 1) / 2 := by
  rw [rampWindow, npLinspace, List.map_map]
  rfl

/-- The rising window starts at `(cos π + 1) / 2 = 0`. -/
theorem rampWindow_getD_zero (self : Renderer) (d : ℚ)
    (h : 1 ≤ (rampWindow self d).length) : (rampWindow self d).getD 0 0 = 0 := by
  have hn : 1 ≤ pyInt (self.sample_rate * d) := by
    rwa [rampWindow_length] at h
  rw [rampWindow_eq, getD_map_range _ _ 0 (by omega)]
  norm_num [Real.cos_pi]

/-- C9 (confirmed): whenever `apply_ramp` returns a result on a nonempty
signal, every sample strictly between the two ramp windows (each of length
`int(sample_rate * ramp_duration)`) is unchanged, and the first and last
output samples are scaled by the window's zero endpoint, i.e. are exactly 0
in real arithmetic (the claim's "approximately zero" accounts for float
rounding of `cos π`). -/
theorem c9_apply_ramp_frame (self : Renderer) (signal : List ℝ) (d : ℚ)
    (out : List ℝ) (hok : apply_ramp self signal d = .ok out) (hne : signal ≠ []) :
    out.length = signal.length ∧
    (∀ i, (rampWindow self d).length ≤ i →
      i < signal.length - (rampWindow self d).length →
      out.getD i 0 = signal.getD i 0) ∧
    out.getD 0 0 = 0 ∧ out.getD (signal.length - 1) 0 = 0 := by
  have hm : 1 ≤ signal.length := by
    cases signal
    · simp at hne
    · simp
  simp only [apply_ramp] at hok
  by_cases hcond : (1 ≤ (rampWindow self d).length ∧
        (rampWindow self d).length ≤ signal.length) ∨
      ((rampWindow self d).length = 0 ∧ signal.length = 0) ∨
      ((rampWindow self d).length = 1 ∧ signal.length = 0)
  case neg =>
    rw [if_neg hcond] at hok
    exact absurd hok (by simp)
  rw [if_pos hcond] at hok
  have hnm : 1 ≤ (rampWindow self d).length ∧
      (rampWindow self d).length ≤ signal.length := by
    rcases hcond with h | h | h
    · exact h
    · omega
    · omega
  have hout : out = (List.range signal.length).map fun i =>
      signal.getD i 0 * (if i < (rampWindow self d).length
          then (rampWindow self d).getD i 0 else 1) *
        (if signal.length - (rampWindow self d).length ≤ i
          then (rampWindow self d).getD (signal.length - 1 - i) 0 else 1) := by
    exact (Except.ok.inj hok).symm
  have hzero : (rampWindow self d).getD 0 0 = 0 :=
    rampWindow_getD_zero self d hnm.1
  subst hout
  refine ⟨by simp, ?_, ?_, ?_⟩
  · intro i h1 h2
    rw [getD_map_range _ _ i (by omega)]
    rw [if_neg (by omega), if_neg (by omega), mul_one, mul_one]
  · rw [getD_map_range _ _ 0 (by omega)]
    rw [if_pos (show (0 : ℕ) < (rampWindow self d).length by omega), hzero,
      mul_zero, zero_mul]
  · rw [getD_map_range _ _ (signal.length - 1) (by omega)]
    rw [if_pos (show signal.length - (rampWindow self d).length ≤
      signal.length - 1 by omega)]
    have h0 : signal.length - 1 - (signal.length - 1) = 0 := by omega
    rw [h0, hzero, mul_zero]

theorem rampWindowW : rampWindow rendererW 1 = [0] := by
  have hn : pyInt ((rendererW.sample_rate : ℚ) * 1) = 1 := by
    norm_num [rendererW, Renderer.make, pyInt]
  have hr1 : List.range 1 = [0] := rfl
  simp only [rampWindow, hn, npLinspace, hr1, List.map_cons, List.map_nil]
  norm_num [Real.cos_pi]

theorem applyRampW : apply_ramp rendererW [(4 : ℝ)] 1 = .ok [0] := by
  have hr1 : List.range 1 = [0] := rfl
  simp only [apply_ramp, rampWindowW]
  rw [if_pos (Or.inl ⟨by simp, by simp⟩)]
  simp only [hr1, List.map_cons, List.map_nil, List.length_cons, List.length_nil]
  norm_num

/-- C9 (witness): the frame property at the one-sample signal `[4]` with a
one-sample ramp window, whose output is `[0]`. -/
theorem c9_apply_ramp_frame_witness :
    (apply_ramp rendererW [(4 : ℝ)] 1 = .ok [0] ∧ ([(4 : ℝ)] : List ℝ) ≠ []) ∧
    ([(0 : ℝ)] : List ℝ).length = [(4 : ℝ)].length ∧
    ([(0 : ℝ)] : List ℝ).getD 0 0 = 0 ∧
    ([(0 : ℝ)] : List ℝ).getD ([(4 : ℝ)].length - 1) 0 = 0 :=
  ⟨⟨applyRampW, by simp⟩,
    (c9_apply_ramp_frame rendererW [4] 1 [0] applyRampW (by simp)).1,
    (c9_apply_ramp_frame rendererW [4] 1 [0] applyRampW (by simp)).2.2⟩

/-! ### Structural lemmas about the render loop -/

theorem getLastD_ne_nil {α : Type} (l : List α) (hl : l ≠ []) (a b : α) :
    l.getLastD a = l.getLastD b := by
  cases h : l.getLast? with
  | none => exact absurd (List.getLast?_eq_none_iff.mp h) hl
  | some x =>
    rw [List.getLastD_eq_getLast?, List.getLastD_eq_getLast?, h]
    rfl

/-- One inductive pass over the channel loop: the filenames it appends, the
final `target_brir` loop variable, and — once `snr_ref` is cached — the fact
that every channel's written interferer is its at-ear interferer scaled by
that same cached value and `10 ** ((-snr_dB) / 20)`. -/
theorem renderChannels_spec (self : Renderer)
    (metric : List (ℝ × ℝ) → List (ℝ × ℝ) → ℝ) (files : SceneFiles)
    (target isig : List ℝ) (stem : String) (snr : ℤ) (pre post : ℕ) :
    ∀ (chans : List ℕ) (ref : Option ℝ) (tb : Option (List (ℝ × ℝ)))
      (outs : List (String × OutSig)) (ref2 : Option ℝ) (tb2 : Option (List (ℝ × ℝ))),
      renderChannels self metric files target isig stem snr pre post chans ref tb =
        .ok (outs, ref2, tb2) →
      (outs.map Prod.fst = chans.flatMap fun ch =>
        [stem ++ "_mixed_CH" ++ toString ch ++ ".wav",
         stem ++ "_target_CH" ++ toString ch ++ ".wav",
         stem ++ "_interferer_CH" ++ toString ch ++ ".wav"]) ∧
      (tb2 = if chans = [] then tb
        else some (files.targetBrir (chans.getLastD 0))) ∧
      (∀ r, ref = some r → ref2 = some r ∧
        ∀ ch ∈ chans, ∃ ie,
          apply_brir self (.d1 isig) (.d2 (files.interfererBrir ch)) = .ok ie ∧
          (stem ++ "_interferer_CH" ++ toString ch ++ ".wav",
            OutSig.stereo (ie.map fun p =>
              (p.1 * r * snr_factor snr, p.2 * r * snr_factor snr))) ∈ outs) := by
  intro chans
  induction chans with
  | nil =>
    intro ref tb outs ref2 tb2 h
    simp only [renderChannels, Except.ok.injEq, Prod.mk.injEq] at h
    obtain ⟨h1, h2, h3⟩ := h
    subst h1
    subst h2
    subst h3
    refine ⟨by simp, by simp, ?_⟩
    intro r hr
    exact ⟨hr, by simp⟩
  | cons c rest ih =>
    intro ref tb outs ref2 tb2 h
    cases ref with
    | none =>
      simp only [renderChannels] at h
      obtain ⟨tae, htae, h⟩ := except_bind_ok _ _ _ h
      obtain ⟨iae, hiae, h⟩ := except_bind_ok _ _ _ h
      obtain ⟨r1, hr1, h⟩ := except_bind_ok _ _ _ h
      obtain ⟨res, hres, h⟩ := except_bind_ok _ _ _ h
      obtain ⟨restOuts, refOut, brirOut⟩ := res
      simp only [Except.ok.injEq, Prod.mk.injEq] at h
      obtain ⟨h1, h2, h3⟩ := h
      subst h1
      subst h2
      subst h3
      obtain ⟨ihA, ihB, ihC⟩ := ih (some r1) (some (files.targetBrir c)) restOuts
        refOut brirOut hres
      refine ⟨by simp [ihA], ?_, ?_⟩
      · rw [ihB]
        by_cases hrest : rest = []
        · subst hrest
          simp
        · rw [if_neg hrest, if_neg (by simp)]
          have h0 : (c :: rest).getLastD 0 = rest.getLastD c :=
            List.getLastD_cons 0 c rest
          rw [h0, getLastD_ne_nil rest hrest c 0]
      · intro r hr
        exact absurd hr (by simp)
    | some r0 =>
      simp only [renderChannels] at h
      obtain ⟨tae, htae, h⟩ := except_bind_ok _ _ _ h
      obtain ⟨iae, hiae, h⟩ := except_bind_ok _ _ _ h
      obtain ⟨r1, hr1, h⟩ := except_bind_ok _ _ _ h
      obtain ⟨res, hres, h⟩ := except_bind_ok _ _ _ h
      obtain ⟨restOuts, refOut, brirOut⟩ := res
      simp only [Except.ok.injEq, Prod.mk.injEq] at h
      obtain ⟨h1, h2, h3⟩ := h
      subst h1
      subst h2
      subst h3
      obtain ⟨ihA, ihB, ihC⟩ := ih (some r1) (some (files.targetBrir c)) restOuts
        refOut brirOut hres
      refine ⟨by simp [ihA], ?_, ?_⟩
      · rw [ihB]
        by_cases hrest : rest = []
        · subst hrest
          simp
        · rw [if_neg hrest, if_neg (by simp)]
          have h0 : (c :: rest).getLastD 0 = rest.getLastD c :=
            List.getLastD_cons 0 c rest
          rw [h0, getLastD_ne_nil rest hrest c 0]
      · intro r hr
        have hrv : r1 = r := by
          have hx : r0 = r := by simpa using hr
          have hy : r1 = r0 := (Except.ok.inj hr1).symm
          exact hy.trans hx
        subst hrv
        obtain ⟨ihr, ihmem⟩ := ihC _ rfl
        refine ⟨ihr, ?_⟩
        intro ch hch
        rcases List.mem_cons.mp hch with hc | hc
        · subst hc
          exact ⟨iae, hiae, by simp⟩
        · obtain ⟨ie, hie, hmem⟩ := ihmem ch hc
          exact ⟨ie, hie, by simp [hmem]⟩

/-- Starting with no cached reference, the first channel's at-ear pair
feeds `compute_snr` and the resulting value scales every channel's written
interferer. -/
theorem renderChannels_first_ref (self : Renderer)
    (metric : List (ℝ × ℝ) → List (ℝ × ℝ) → ℝ) (files : SceneFiles)
    (target isig : List ℝ) (stem : String) (snr : ℤ) (pre post : ℕ)
    (c : ℕ) (rest : List ℕ) (tb : Option (List (ℝ × ℝ)))
    (outs : List (String × OutSig)) (ref2 : Option ℝ) (tb2 : Option (List (ℝ × ℝ)))
    (h : renderChannels self metric files target isig stem snr pre post
      (c :: rest) none tb = .ok (outs, ref2, tb2)) :
    ∃ t0 i0 r,
      apply_brir self (.d1 target) (.d2 (files.targetBrir c)) = .ok t0 ∧
      apply_brir self (.d1 isig) (.d2 (files.interfererBrir c)) = .ok i0 ∧
      compute_snr self metric t0 i0 pre post = .ok r ∧
      ∀ ch ∈ c :: rest, ∃ ie,
        apply_brir self (.d1 isig) (.d2 (files.interfererBrir ch)) = .ok ie ∧
        (stem ++ "_interferer_CH" ++ toString ch ++ ".wav",
          OutSig.stereo (ie.map fun p =>
            (p.1 * r * snr_factor snr, p.2 * r * snr_factor snr))) ∈ outs := by
  simp only [renderChannels] at h
  obtain ⟨tae, htae, h⟩ := except_bind_ok _ _ _ h
  obtain ⟨iae, hiae, h⟩ := except_bind_ok _ _ _ h
  obtain ⟨r1, hr1, h⟩ := except_bind_ok _ _ _ h
  obtain ⟨res, hres, h⟩ := except_bind_ok _ _ _ h
  obtain ⟨restOuts, refOut, brirOut⟩ := res
  simp only [Except.ok.injEq, Prod.mk.injEq] at h
  obtain ⟨h1, h2, h3⟩ := h
  subst h1
  subst h2
  subst h3
  obtain ⟨-, -, ihC⟩ := renderChannels_spec self metric files target isig stem snr
    pre post rest (some r1) (some (files.targetBrir c)) restOuts refOut brirOut hres
  obtain ⟨-, ihmem⟩ := ihC r1 rfl
  refine ⟨tae, iae, r1, htae, hiae, hr1, ?_⟩
  intro ch hch
  rcases List.mem_cons.mp hch with hc | hc
  · subst hc
    exact ⟨iae, hiae, by simp⟩
  · obtain ⟨ie, hie, hmem⟩ := ihmem ch hc
    exact ⟨ie, hie, by simp [hmem]⟩

/-- Decomposition of a successful `render` call into its pipeline stages. -/
theorem render_ok_elim (self : Renderer)
    (metric : List (ℝ × ℝ) → List (ℝ × ℝ) → ℝ) (files : SceneFiles)
    (scene : String) (snr : ℤ) (pre post : ℕ) (outs : List (String × OutSig))
    (hok : render self metric files scene snr pre post = .ok outs) :
    ∃ isig chanOuts ref2 tb2 tan,
      apply_ramp self files.interfererSig self.ramp_duration = .ok isig ∧
      renderChannels self metric files (paddedTarget files pre post) isig
        (self.output_path ++ "/" ++ scene) snr pre post self.channels none none =
        .ok (chanOuts, ref2, tb2) ∧
      apply_brir self (.d1 (paddedTarget files pre post))
        (.d2 (pad files.anechoicBrir
          ((tb2.getD (files.targetBrir 0)).length))) = .ok tan ∧
      outs = [(self.output_path ++ "/" ++ scene ++ "_target.wav",
               OutSig.mono (paddedTarget files pre post)),
              (self.output_path ++ "/" ++ scene ++ "_interferer.wav",
               OutSig.mono isig)] ++
        chanOuts ++ [(self.output_path ++ "/" ++ scene ++ "_target_anechoic.wav",
               OutSig.stereo tan)] := by
  simp only [render] at hok
  obtain ⟨isig, hisig, hok⟩ := except_bind_ok _ _ _ hok
  obtain ⟨trip, htrip, hok⟩ := except_bind_ok _ _ _ hok
  obtain ⟨chanOuts, ref2, tb2⟩ := trip
  obtain ⟨tan, htan, hok⟩ := except_bind_ok _ _ _ hok
  refine ⟨isig, chanOuts, ref2, tb2, tan, hisig, htrip, htan, ?_⟩
  exact (Except.ok.inj hok).symm

/-! ### C1: the reference gain is computed once and reused -/

/-- C1 (confirmed): for a successful `render` with a nonempty configured
channel sequence, there is a single reference value `r`: it is the result of
`compute_snr` on the at-ear target/interferer pair of the *first* channel in
the configured order, and the written `…_interferer_CH{ch}.wav` signal of
*every* channel equals that channel's at-ear interferer with each sample
multiplied by the same cached `r` and by `10 ** ((-snr_dB) / 20)`; no other
`compute_snr` result is ever used (the cache is written once). -/
theorem c1_reference_gain (self : Renderer)
    (metric : List (ℝ × ℝ) → List (ℝ × ℝ) → ℝ) (files : SceneFiles)
    (scene : String) (snr : ℤ) (pre post : ℕ) (outs : List (String × OutSig))
    (hch : self.channels ≠ [])
    (hok : render self metric files scene snr pre post = .ok outs) :
    ∃ isig t0 i0 r,
      apply_ramp self files.interfererSig self.ramp_duration = .ok isig ∧
      apply_brir self (.d1 (paddedTarget files pre post))
        (.d2 (files.targetBrir (self.channels.headD 0))) = .ok t0 ∧
      apply_brir self (.d1 isig)
        (.d2 (files.interfererBrir (self.channels.headD 0))) = .ok i0 ∧
      compute_snr self metric t0 i0 pre post = .ok r ∧
      ∀ ch ∈ self.channels, ∃ ie,
        apply_brir self (.d1 isig) (.d2 (files.interfererBrir ch)) = .ok ie ∧
        (self.output_path ++ "/" ++ scene ++ "_interferer_CH" ++ toString ch ++ ".wav",
          OutSig.stereo (ie.map fun p =>
            (p.1 * r * snr_factor snr, p.2 * r * snr_factor snr))) ∈ outs := by
  obtain ⟨isig, chanOuts, ref2, tb2, tan, hisig, htrip, htan, houts⟩ :=
    render_ok_elim self metric files scene snr pre post outs hok
  obtain ⟨c, rest, hcr⟩ : ∃ c rest, self.channels = c :: rest := by
    cases hc : self.channels with
    | nil => exact absurd hc hch
    | cons a l => exact ⟨a, l, rfl⟩
  rw [hcr] at htrip
  obtain ⟨t0, i0, r, ht0, hi0, hr, hmem⟩ := renderChannels_first_ref self metric files
    (paddedTarget files pre post) isig (self.output_path ++ "/" ++ scene) snr pre post
    c rest none chanOuts ref2 tb2 htrip
  refine ⟨isig, t0, i0, r, hisig, ?_, ?_, hr, ?_⟩
  · rw [hcr]
    simpa using ht0
  · rw [hcr]
    simpa using hi0
  · intro ch hch2
    rw [hcr] at hch2
    obtain ⟨ie, hie, hm⟩ := hmem ch hch2
    refine ⟨ie, hie, ?_⟩
    rw [houts]
    simp [hm]

/-! ### C2: which target BRIR length pads the anechoic BRIR -/

/-- C2 (amended): the anechoic reference is built by zero-padding the
dedicated anechoic BRIR out to the length of the *most recently loaded*
target BRIR — that of the **last** channel in the configured order, which is
channel 0 whenever the channel set is nonempty (or channel 0's target BRIR,
loaded for this purpose only, when the channel set is empty; both cases are
`channels.getLastD 0`) — and then convolving the padded target against that
padded anechoic BRIR; the result is the last artifact recorded. -/
theorem c2_anechoic_pad_amended (self : Renderer)
    (metric : List (ℝ × ℝ) → List (ℝ × ℝ) → ℝ) (files : SceneFiles)
    (scene : String) (snr : ℤ) (pre post : ℕ) (outs : List (String × OutSig))
    (hok : render self metric files scene snr pre post = .ok outs) :
    ∃ sig,
      apply_brir self (.d1 (paddedTarget files pre post))
        (.d2 (pad files.anechoicBrir
          (files.targetBrir (self.channels.getLastD 0)).length)) = .ok sig ∧
      outs.getLast? = some (self.output_path ++ "/" ++ scene ++ "_target_anechoic.wav",
        OutSig.stereo sig) := by
  obtain ⟨isig, chanOuts, ref2, tb2, tan, hisig, htrip, htan, houts⟩ :=
    render_ok_elim self metric files scene snr pre post outs hok
  obtain ⟨-, hB, -⟩ := renderChannels_spec self metric files (paddedTarget files pre post)
    isig (self.output_path ++ "/" ++ scene) snr pre post self.channels none none
    chanOuts ref2 tb2 htrip
  have hmatch : tb2.getD (files.targetBrir 0) =
      files.targetBrir (self.channels.getLastD 0) := by
    cases tb2 with
    | none =>
      by_cases hc : self.channels = []
      · simp only [hc, Option.getD_none]
        rfl
      · rw [if_neg hc] at hB
        exact absurd hB (by simp)
    | some b =>
      by_cases hc : self.channels = []
      · rw [if_pos hc] at hB
        exact absurd hB (by simp)
      · rw [if_neg hc] at hB
        rw [Option.getD_some]
        exact Option.some.inj hB
  refine ⟨tan, ?_, ?_⟩
  · rw [← hmatch]
    exact htan
  · rw [houts]
    exact List.getLast?_concat _

/-! ### C5: written filename set versus the completeness check -/

theorem length_flatMap_three {α β : Type} (f g h : β → α) (l : List β) :
    (l.flatMap fun ch => [f ch, g ch, h ch]).length = 3 * l.length := by
  induction l with
  | nil => simp
  | cons c rest ih =>
    simp only [List.flatMap_cons, List.length_append, List.length_cons,
      List.length_nil, ih]
    omega

theorem perm_flatMap_chan (stem : String) (chans : List ℕ) :
    (chans.flatMap fun ch => [stem ++ "_mixed_CH" ++ toString ch ++ ".wav",
      stem ++ "_target_CH" ++ toString ch ++ ".wav",
      stem ++ "_interferer_CH" ++ toString ch ++ ".wav"]).Perm
    (chans.flatMap fun ch => [stem ++ "_mixed_CH" ++ toString ch ++ ".wav",
      stem ++ "_interferer_CH" ++ toString ch ++ ".wav",
      stem ++ "_target_CH" ++ toString ch ++ ".wav"]) := by
  induction chans with
  | nil => simp
  | cons c rest ih =>
    simp only [List.flatMap_cons]
    exact List.Perm.append (List.Perm.cons _ (List.Perm.swap _ _ _)) ih

theorem perm_render_check (t i a : String) (F F2 : List String)
    (hF : F.Perm F2) : (t :: i :: (F ++ [a])).Perm (t :: a :: i :: F2) := by
  refine List.Perm.cons t ?_
  have h1 : (F ++ [a]).Perm (a :: F) := by
    simpa using @List.perm_append_comm _ F [a]
  exact ((List.Perm.cons i h1).trans (List.Perm.swap a i F)).trans
    (List.Perm.cons a (List.Perm.cons i hF))

/-- C5 (confirmed): for any renderer whose channel sequence follows the
constructor's rule for `num_channels` (empty for 0, else `[1, …, N, 0]` —
the same rule `check_scene_exists` recomputes), the filenames of a
successful `render` are a permutation of the `files_to_check` list whose
existence `check_scene_exists` tests, and the artifact list has exactly
`3 + 3 × |channels|` entries. -/
theorem c5_artifact_set_matches_check (self : Renderer)
    (metric : List (ℝ × ℝ) → List (ℝ × ℝ) → ℝ) (files : SceneFiles)
    (scene : String) (snr : ℤ) (pre post : ℕ) (outs : List (String × OutSig))
    (num_channels : ℕ)
    (hch : self.channels = checkChannels num_channels)
    (hok : render self metric files scene snr pre post = .ok outs) :
    (outs.map Prod.fst).Perm (files_to_check self.output_path scene num_channels) ∧
    outs.length = 3 + 3 * self.channels.length := by
  obtain ⟨isig, chanOuts, ref2, tb2, tan, hisig, htrip, htan, houts⟩ :=
    render_ok_elim self metric files scene snr pre post outs hok
  obtain ⟨hA, -, -⟩ := renderChannels_spec self metric files (paddedTarget files pre post)
    isig (self.output_path ++ "/" ++ scene) snr pre post self.channels none none
    chanOuts ref2 tb2 htrip
  constructor
  · rw [houts]
    simp only [List.map_append, List.map_cons, List.map_nil, hA, List.cons_append,
      List.nil_append]
    simp only [files_to_check, ← hch, List.cons_append, List.nil_append]
    exact perm_render_check _ _ _ _ _ (perm_flatMap_chan _ _)
  · rw [houts]
    have hlen : chanOuts.length = 3 * self.channels.length := by
      have hc := congrArg List.length hA
      rw [List.length_map, length_flatMap_three] at hc
      exact hc
    simp only [List.length_append, List.length_cons, List.length_nil, hlen]
    omega

/-! ### Evaluating `render` on a concrete witness scene -/

theorem ok_bind {ε α β : Type} (a : α) (f : α → Except ε β) :
    (Except.ok a >>= f) = f a := rfl

theorem getD_replicate_zero (a i : ℕ) :
    (List.replicate a (0 : ℝ)).getD i 0 = 0 := by
  rw [List.getD_eq_getElem?_getD, List.getElem?_replicate]
  split <;> rfl

theorem conv_zero (a b : ℕ) :
    conv (List.replicate a 0) (List.replicate b 0) =
      List.replicate (a + b - 1) 0 := by
  unfold conv
  rw [List.length_replicate, List.length_replicate]
  refine List.eq_replicate_iff.2 ⟨by simp, ?_⟩
  intro x hx
  obtain ⟨n, hn, rfl⟩ := List.mem_map.1 hx
  refine Finset.sum_eq_zero ?_
  intro i hi
  rw [getD_replicate_zero, zero_mul]

/-- Evaluating `apply_brir` on all-zero mono input and an all-zero BRIR of `k ≠ 1`
rows: an all-zero stereo output of the truncated convolution length. -/
theorem apply_brir_zero (self : Renderer) (a k : ℕ) (hk : k ≠ 1) :
    apply_brir self (.d1 (List.replicate a 0)) (.d2 (List.replicate k (0, 0))) =
      .ok (List.replicate (min (a + self.n_tail) (a + k - 1)) (0, 0)) := by
  have hsq : npSqueeze (.d2 (List.replicate k ((0 : ℝ), (0 : ℝ)))) =
      .d2 (List.replicate k (0, 0)) :=
    npSqueeze_d2 _ (by simpa using hk)
  simp only [apply_brir, hsq]
  rw [List.map_replicate, List.map_replicate]
  simp only [List.length_replicate]
  rw [conv_zero, zip_self, List.map_replicate, List.take_replicate]

theorem rendererW_channels : rendererW.channels = [1, 0] := rfl

theorem paddedTargetW : paddedTarget filesW 0 0 = [0] := rfl

theorem trimPreW : trimPre rendererW = 0 := by
  norm_num [trimPre, rendererW, Renderer.make, pyInt]

theorem trimPostW : trimPost rendererW = 0 := by
  norm_num [trimPost, rendererW, Renderer.make, pyInt]

theorem compute_snrW (x y : List (ℝ × ℝ)) :
    compute_snr rendererW metricW x y 0 0 = .ok 1 := by
  simp only [compute_snr, trimPreW, trimPostW]
  rfl

theorem snr_factor_zero : snr_factor 0 = 1 := by
  rw [snr_factor, show (-(((0 : ℤ) : ℝ)) / 20) = (0 : ℝ) by norm_num,
    Real.rpow_zero]

theorem scale_zeroW (k : ℕ) :
    (List.replicate k ((0 : ℝ), (0 : ℝ))).map (fun p =>
      (p.1 * 1 * snr_factor 0, p.2 * 1 * snr_factor 0)) =
      List.replicate k (0, 0) := by
  rw [List.map_replicate, snr_factor_zero]
  norm_num

theorem sum_signalsW (j k : ℕ) :
    sum_signals [List.replicate j ((0 : ℝ), (0 : ℝ)), List.replicate k (0, 0)] =
      List.replicate (min k j) (0, 0) := by
  simp only [sum_signals]
  rw [List.zip_replicate]
  norm_num

theorem apply_brirW2 :
    apply_brir rendererW (.d1 [0]) (.d2 (List.replicate 2 (0, 0))) =
      .ok (List.replicate 2 (0, 0)) := by
  have h := apply_brir_zero rendererW 1 2 (by norm_num)
  rw [rendererW_n_tail] at h
  norm_num at h
  exact h

theorem apply_brirW3 :
    apply_brir rendererW (.d1 [0]) (.d2 (List.replicate 3 (0, 0))) =
      .ok (List.replicate 3 (0, 0)) := by
  have h := apply_brir_zero rendererW 1 3 (by norm_num)
  rw [rendererW_n_tail] at h
  norm_num at h
  exact h

/-- The channel loop of the witness scene, evaluated: channel 1 (2-row
BRIRs) then channel 0 (3-row target BRIR), reference value 1, final
`target_brir` the 3-row channel-0 BRIR. -/
theorem renderChannelsW (stem : String) :
    renderChannels rendererW metricW filesW [0] [0] stem 0 0 0 [1, 0] none none =
      .ok ([(stem ++ "_mixed_CH" ++ toString (1 : ℕ) ++ ".wav",
             .stereo (List.replicate 2 (0, 0))),
            (stem ++ "_target_CH" ++ toString (1 : ℕ) ++ ".wav",
             .stereo (List.replicate 2 (0, 0))),
            (stem ++ "_interferer_CH" ++ toString (1 : ℕ) ++ ".wav",
             .stereo (List.replicate 2 (0, 0))),
            (stem ++ "_mixed_CH" ++ toString (0 : ℕ) ++ ".wav",
             .stereo (List.replicate 2 (0, 0))),
            (stem ++ "_target_CH" ++ toString (0 : ℕ) ++ ".wav",
             .stereo (List.replicate 3 (0, 0))),
            (stem ++ "_interferer_CH" ++ toString (0 : ℕ) ++ ".wav",
             .stereo (List.replicate 2 (0, 0)))],
        some 1, some (List.replicate 3 (0, 0))) := by
  have hb1 : filesW.targetBrir 1 = List.replicate 2 (0, 0) := rfl
  have hb0 : filesW.targetBrir 0 = List.replicate 3 (0, 0) := rfl
  have hib1 : filesW.interfererBrir 1 = List.replicate 2 (0, 0) := rfl
  have hib0 : filesW.interfererBrir 0 = List.replicate 2 (0, 0) := rfl
  simp only [renderChannels, hb1, hb0, hib1, hib0, apply_brirW2, apply_brirW3,
    ok_bind, compute_snrW, scale_zeroW, sum_signalsW]
  norm_num

/-- The output filename stem of the witness scene. -/
def stemW : String := rendererW.output_path ++ "/" ++ "S1"

/-- The artifact list produced by `render` on the witness scene. -/
def outsW : List (String × OutSig) :=
  [(stemW ++ "_target.wav", .mono [0]),
   (stemW ++ "_interferer.wav", .mono [0])] ++
  [(stemW ++ "_mixed_CH" ++ toString (1 : ℕ) ++ ".wav",
    .stereo (List.replicate 2 (0, 0))),
   (stemW ++ "_target_CH" ++ toString (1 : ℕ) ++ ".wav",
    .stereo (List.replicate 2 (0, 0))),
   (stemW ++ "_interferer_CH" ++ toString (1 : ℕ) ++ ".wav",
    .stereo (List.replicate 2 (0, 0))),
   (stemW ++ "_mixed_CH" ++ toString (0 : ℕ) ++ ".wav",
    .stereo (List.replicate 2 (0, 0))),
   (stemW ++ "_target_CH" ++ toString (0 : ℕ) ++ ".wav",
    .stereo (List.replicate 3 (0, 0))),
   (stemW ++ "_interferer_CH" ++ toString (0 : ℕ) ++ ".wav",
    .stereo (List.replicate 2 (0, 0)))] ++
  [(stemW ++ "_target_anechoic.wav", .stereo (List.replicate 3 (0, 0)))]

/-- The call `render` fully evaluated on the witness scene. -/
theorem renderW_value : render rendererW metricW filesW "S1" 0 0 0 = .ok outsW := by
  have hramp : apply_ramp rendererW filesW.interfererSig rendererW.ramp_duration =
      .ok [0] := applyRampW
  have hpad : pad filesW.anechoicBrir 3 = List.replicate 3 (0, 0) := rfl
  simp only [render, paddedTargetW, hramp, ok_bind, rendererW_channels,
    renderChannelsW, Option.getD_some, List.length_replicate, hpad, apply_brirW3]
  rfl

/-- C2 (counterexample): the claim says the anechoic BRIR is padded to the
length of *channel 1's* target BRIR when channels are configured.  In the
witness scene channel 1's target BRIR has 2 rows and channel 0's has 3; the
written anechoic reference has 3 rows (the pad length came from the *last*
loaded BRIR, channel 0's), while the claim's construction — convolving
against the anechoic BRIR padded to channel 1's length — yields a 2-row
signal, a different value. -/
theorem c2_anechoic_counterexample :
    render rendererW metricW filesW "S1" 0 0 0 = .ok outsW ∧
    outsW.getLast? = some (stemW ++ "_target_anechoic.wav",
      OutSig.stereo (List.replicate 3 (0, 0))) ∧
    apply_brir rendererW (.d1 (paddedTarget filesW 0 0))
      (.d2 (pad filesW.anechoicBrir (filesW.targetBrir 1).length)) =
      .ok (List.replicate 2 (0, 0)) ∧
    OutSig.stereo (List.replicate 3 ((0 : ℝ), (0 : ℝ))) ≠
      OutSig.stereo (List.replicate 2 (0, 0)) := by
  refine ⟨renderW_value, rfl, ?_, ?_⟩
  · rw [paddedTargetW,
      show pad filesW.anechoicBrir (filesW.targetBrir 1).length =
        List.replicate 2 ((0 : ℝ), (0 : ℝ)) from rfl]
    exact apply_brirW2
  · intro h
    have h2 := congrArg (fun s => match s with
      | OutSig.mono l => l.length
      | OutSig.stereo l => l.length) h
    simp at h2

/-- C1 (witness): the reference-gain property instantiated on the witness
scene (channels `[1, 0]`, snr 0 dB). -/
theorem c1_reference_gain_witness :
    (rendererW.channels ≠ [] ∧
     render rendererW metricW filesW "S1" 0 0 0 = .ok outsW) ∧
    ∃ isig t0 i0 r,
      apply_ramp rendererW filesW.interfererSig rendererW.ramp_duration = .ok isig ∧
      apply_brir rendererW (.d1 (paddedTarget filesW 0 0))
        (.d2 (filesW.targetBrir (rendererW.channels.headD 0))) = .ok t0 ∧
      apply_brir rendererW (.d1 isig)
        (.d2 (filesW.interfererBrir (rendererW.channels.headD 0))) = .ok i0 ∧
      compute_snr rendererW metricW t0 i0 0 0 = .ok r ∧
      ∀ ch ∈ rendererW.channels, ∃ ie,
        apply_brir rendererW (.d1 isig) (.d2 (filesW.interfererBrir ch)) = .ok ie ∧
        (rendererW.output_path ++ "/" ++ "S1" ++ "_interferer_CH" ++
            toString ch ++ ".wav",
          OutSig.stereo (ie.map fun p =>
            (p.1 * r * snr_factor 0, p.2 * r * snr_factor 0))) ∈ outsW :=
  ⟨⟨by simp [rendererW_channels], renderW_value⟩,
    c1_reference_gain rendererW metricW filesW "S1" 0 0 0 outsW
      (by simp [rendererW_channels]) renderW_value⟩

/-- C2 (witness): the amended anechoic-padding property instantiated on the
witness scene. -/
theorem c2_anechoic_pad_amended_witness :
    render rendererW metricW filesW "S1" 0 0 0 = .ok outsW ∧
    ∃ sig,
      apply_brir rendererW (.d1 (paddedTarget filesW 0 0))
        (.d2 (pad filesW.anechoicBrir
          (filesW.targetBrir (rendererW.channels.getLastD 0)).length)) = .ok sig ∧
      outsW.getLast? = some (rendererW.output_path ++ "/" ++ "S1" ++
        "_target_anechoic.wav", OutSig.stereo sig) :=
  ⟨renderW_value,
    c2_anechoic_pad_amended rendererW metricW filesW "S1" 0 0 0 outsW renderW_value⟩

/-- C5 (witness): the artifact/check filename agreement instantiated on the
witness scene with `num_channels = 1` (9 artifacts). -/
theorem c5_artifact_set_matches_check_witness :
    (rendererW.channels = checkChannels 1 ∧
     render rendererW metricW filesW "S1" 0 0 0 = .ok outsW) ∧
    (outsW.map Prod.fst).Perm (files_to_check rendererW.output_path "S1" 1) ∧
    outsW.length = 3 + 3 * rendererW.channels.length :=
  ⟨⟨rfl, renderW_value⟩,
    c5_artifact_set_matches_check rendererW metricW filesW "S1" 0 0 0 outsW 1
      rfl renderW_value⟩
